import Mathlib

/-!
Shallow embedding of the pbuild build orchestrator (Go) and proofs about the
spec's claims.  Pure logic is translated function-for-function from the Go
source; external effects (toolchain invocation, file I/O, git metadata) enter
as explicit parameters or oracle functions, so every definition is executable.
-/

namespace targets

/-- A build target, mirroring `targets.Target` (`struct{ OS, Arch string }`). -/
structure Target where
  OS : String
  Arch : String
deriving DecidableEq

/-- The static default target matrix, mirroring `targets.Default`. -/
def Default : List Target :=
  [⟨"linux", "amd64"⟩, ⟨"linux", "arm64"⟩, ⟨"linux", "riscv64"⟩,
   ⟨"windows", "amd64"⟩, ⟨"windows", "arm64"⟩,
   ⟨"darwin", "amd64"⟩, ⟨"darwin", "arm64"⟩,
   ⟨"freebsd", "amd64"⟩, ⟨"freebsd", "arm64"⟩, ⟨"freebsd", "riscv64"⟩,
   ⟨"openbsd", "amd64"⟩, ⟨"openbsd", "arm64"⟩, ⟨"openbsd", "riscv64"⟩,
   ⟨"netbsd", "amd64"⟩, ⟨"netbsd", "arm64"⟩]

/-- Artifact file name for a target, mirroring `targets.OutputName`. -/
def OutputName (project : String) (t : Target) : String :=
  let ext := if t.OS = "windows" then ".exe" else ""
  if (t.OS = "windows" ∧ t.Arch = "amd64") ∨ (t.OS = "linux" ∧ t.Arch = "amd64") then
    project ++ ext
  else
    project ++ "-" ++ t.Arch ++ "-" ++ t.OS ++ ext

end targets

namespace gobuild

/-- Build strategy enumeration, mirroring `gobuild.BuildTagStrategy`. -/
inductive BuildTagStrategy where
  | FlexibleCGO
  | NoCGOEver
  | TraditionalCGO
deriving DecidableEq

/-- ASCII lower-casing of a string, modelling `strings.ToLower` as used by
`ParseStrategy` (exact on the ASCII strings the strategy switch compares). -/
def toLowerGo (s : String) : String :=
  ⟨s.data.map Char.toLower⟩

/-- String-to-strategy conversion, mirroring `gobuild.ParseStrategy`:
a switch on the lower-cased string whose default arm is `NoCGOEver`. -/
def ParseStrategy (s : String) : BuildTagStrategy :=
  if toLowerGo s = "flexible" then .FlexibleCGO
  else if toLowerGo s = "purego" then .NoCGOEver
  else if toLowerGo s = "traditional" then .TraditionalCGO
  else .NoCGOEver

/-- Strategy-to-build-tags mapping, mirroring `gobuild.getBuildTags`. -/
def getBuildTags : BuildTagStrategy → String
  | .FlexibleCGO => "netgo,osusergo"
  | .NoCGOEver => "purego,netgo,osusergo"
  | .TraditionalCGO => ""

/-- Build configuration snapshot, mirroring `gobuild.BuildConfig`. -/
structure BuildConfig where
  Strategy : BuildTagStrategy
  AMD64Level : String
  ARM64Level : String
  ARMLevel : String
  MIPSLevel : String
  PPC64Level : String
  RISCVLevel : String
  BuildMode : String
  Tags : String
  LDFlags : String
  BuildFlags : String
  Verbose : Bool
  CleanCache : Bool
deriving DecidableEq

/-- The `go build` argument list assembled by `gobuild.BuildWithConfig`
(lines 96-122): build flags, build mode, merged tags, ldflags, output path. -/
def buildArgs (config : BuildConfig) (outputPath : String) : List String :=
  let args := ["build"]
  let args := args ++ [if config.BuildFlags ≠ "" then config.BuildFlags else "-trimpath"]
  let args := args ++ ["-buildmode=" ++ config.BuildMode]
  let strategyTags := getBuildTags config.Strategy
  let allTags := (if strategyTags ≠ "" then [strategyTags] else [])
    ++ (if config.Tags ≠ "" then [config.Tags] else [])
  let args := if allTags.length > 0 then args ++ ["-tags", String.intercalate "," allTags]
    else args
  args ++ ["-ldflags", config.LDFlags, "-o", outputPath, "."]

/-- The architecture-keyed CPU-feature environment variable added by the
switch on `t.Arch` in `gobuild.BuildWithConfig` (lines 137-151). -/
def archEnv (t : targets.Target) (config : BuildConfig) : List String :=
  if t.Arch = "amd64" then ["GOAMD64=" ++ config.AMD64Level]
  else if t.Arch = "arm64" then ["GOARM64=" ++ config.ARM64Level]
  else if t.Arch = "arm" then ["GOARM=" ++ config.ARMLevel]
  else if t.Arch = "mips" ∨ t.Arch = "mipsle" then ["GOMIPS=" ++ config.MIPSLevel]
  else if t.Arch = "ppc64" ∨ t.Arch = "ppc64le" then ["GOPPC64=" ++ config.PPC64Level]
  else if t.Arch = "riscv64" then ["GORISCV64=" ++ config.RISCVLevel]
  else []

/-- The environment entries appended by `gobuild.BuildWithConfig` on top of
`os.Environ()` (lines 127-156): `GOOS`/`GOARCH`, the strategy-driven
`CGO_ENABLED=0`, the arch feature variable, and the `GO111MODULE=off`
fallback when the working directory has no `go.mod`. -/
def envOverrides (t : targets.Target) (config : BuildConfig) (hasGoMod : Bool) : List String :=
  ["GOOS=" ++ t.OS, "GOARCH=" ++ t.Arch]
    ++ (if config.Strategy ≠ .FlexibleCGO then ["CGO_ENABLED=0"] else [])
    ++ archEnv t config
    ++ (if hasGoMod then [] else ["GO111MODULE=off"])

/-- The full `cmd.Env` of the toolchain invocation: the ambient process
environment followed by the appended overrides (line 127 starts from
`os.Environ()`). -/
def resolvedEnv (baseEnv : List String) (t : targets.Target) (config : BuildConfig)
    (hasGoMod : Bool) : List String :=
  baseEnv ++ envOverrides t config hasGoMod

/-- Modelled from the spec: the BuildPlan environment-override mapping that
paragraph 3 declares to be a pure function of (Target, BuildConfig) — `OS`,
`ARCH`, the strategy-driven interop-disable flag, and the architecture-keyed
CPU-feature variable.  Used to compare the source's environment construction
against the spec's purity claim. -/
def specEnvOverridesPure (t : targets.Target) (c : BuildConfig) : List String :=
  ["GOOS=" ++ t.OS, "GOARCH=" ++ t.Arch]
    ++ (if c.Strategy ≠ .FlexibleCGO then ["CGO_ENABLED=0"] else [])
    ++ archEnv t c

end gobuild

namespace pbuild

/-- The process-embedded fallback version constant (`var appVersion = "1.1.19"`). -/
def appVersion : String := "1.1.19"

/-- Build-mode resolution, mirroring `getBuildMode`: the sentinel `auto`
resolves to `exe`, anything else is passed through. -/
def getBuildMode (requestedMode : String) : String :=
  if requestedMode ≠ "auto" then requestedMode else "exe"

/-- Effective-strategy selection, mirroring `getBuildStrategy`: escalates to
`FlexibleCGO` only when the build mode is `"pie"` and the raw requested
strategy string is exactly `"purego"`; otherwise parses the string. -/
def getBuildStrategy (requestedStrategy buildMode : String) : gobuild.BuildTagStrategy :=
  if buildMode = "pie" ∧ requestedStrategy = "purego" then .FlexibleCGO
  else gobuild.ParseStrategy requestedStrategy

/-- Compressed-file extension chosen by the switch on the compression flag in
the worker body (lines 643-650): `gzip` gives `.gz`, `zstd` gives `.zst`,
anything else leaves the extension empty. -/
def compressExt (method : String) : String :=
  if method = "gzip" then ".gz"
  else if method = "zstd" then ".zst"
  else ""

/-- Whether `compressFile` succeeds: the method switch (lines 68-79) errors on
any method other than `gzip`/`zstd`; for a supported method the outcome is the
stream-copy I/O result, abstracted here as the `ioOk` oracle. -/
def compressFileOk (method : String) (ioOk : Bool) : Bool :=
  if method = "gzip" ∨ method = "zstd" then ioOk else false

/-- Disk effect of the compression step in the worker body (lines 643-664):
when compression is requested and succeeds the worker deletes the original and
continues with the compressed path; on failure (or no compression) the original
path is kept and nothing is deleted.  Returns (current artifact path, whether
the original was deleted). -/
def postBuildArtifact (outPath : String) (compress : String) (ioOk : Bool) : String × Bool :=
  if compress ≠ "" then
    if compressFileOk compress ioOk then (outPath ++ compressExt compress, true)
    else (outPath, false)
  else (outPath, false)

/-- The file name reported in the result row (lines 696-707): whenever a
compression method is configured the suffix is appended to the base name,
without consulting whether compression succeeded. -/
def finalRowName (outName compress : String) : String :=
  if compress ≠ "" then outName ++ compressExt compress else outName

/-- Version resolution of the orchestrator (lines 505-519): an explicit
override wins verbatim; otherwise the embedded-version scan result (empty
means not found) falls back to `appVersion`, the git revision (empty means
unresolvable) falls back to `"unknown"` and gets `-dirty` appended when the
dirty heuristic fired, and the tag is `base-rev`. -/
def resolveVersionTag (flagVersion extractedBase resolvedRev : String) (dirty : Bool) : String :=
  if flagVersion ≠ "" then flagVersion
  else
    let base := if extractedBase = "" then appVersion else extractedBase
    let rev := if resolvedRev = "" then "unknown" else resolvedRev
    let rev := if dirty then rev ++ "-dirty" else rev
    base ++ "-" ++ rev

/-- Success status glyph pushed for a successful build (line 559). -/
def greenTick : String := "\x1b[32m✓\x1b[0m"

/-- Failure status glyph pushed for a failed build (line 560). -/
def redX : String := "\x1b[31m✗\x1b[0m"

/-- One summary-table row, mirroring the worker result record
`type row struct{ file, target, size, sha256, status string }`. -/
structure Row where
  file : String
  target : String
  size : String
  sha256 : String
  status : String
deriving DecidableEq

/-- The global flag snapshot consumed by the orchestrator (the `flag*`
variables of the main package that feed the build configuration). -/
structure Flags where
  strategy : String
  amd64Level : String
  arm64Level : String
  armLevel : String
  mipsLevel : String
  ppc64Level : String
  riscvLevel : String
  buildmode : String
  tags : String
  ldflags : String
  buildFlags : String
  verbose : Bool
  cleanCache : Bool
  compress : String
  checksums : Bool
  stopOnError : Bool
deriving DecidableEq

/-- The per-run `gobuild.BuildConfig` each worker constructs (lines 592-622):
effective mode from `getBuildMode`, effective strategy from `getBuildStrategy`,
and the default ldflags substituted when the flag is empty. -/
def workerBuildConfig (fl : Flags) (versionTag : String) : gobuild.BuildConfig :=
  let buildMode := getBuildMode fl.buildmode
  let config : gobuild.BuildConfig :=
    { Strategy := getBuildStrategy fl.strategy buildMode
      AMD64Level := fl.amd64Level
      ARM64Level := fl.arm64Level
      ARMLevel := fl.armLevel
      MIPSLevel := fl.mipsLevel
      PPC64Level := fl.ppc64Level
      RISCVLevel := fl.riscvLevel
      BuildMode := buildMode
      Tags := fl.tags
      LDFlags := fl.ldflags
      BuildFlags := fl.buildFlags
      Verbose := fl.verbose
      CleanCache := fl.cleanCache }
  if config.LDFlags = "" then
    { config with LDFlags := "-s -w -X main.appVersion=" ++ versionTag }
  else config

/-- The `BuildConfig` stored into the persisted `BuildMetadata` document
(lines 795-809): the strategy re-parsed from the raw flag string and the raw
requested build mode (the source comments `Show the requested mode, not the
resolved one`). -/
def metadataBuildConfig (fl : Flags) : gobuild.BuildConfig :=
  { Strategy := gobuild.ParseStrategy fl.strategy
    AMD64Level := fl.amd64Level
    ARM64Level := fl.arm64Level
    ARMLevel := fl.armLevel
    MIPSLevel := fl.mipsLevel
    PPC64Level := fl.ppc64Level
    RISCVLevel := fl.riscvLevel
    BuildMode := fl.buildmode
    Tags := fl.tags
    LDFlags := fl.ldflags
    BuildFlags := fl.buildFlags
    Verbose := fl.verbose
    CleanCache := fl.cleanCache }

/-- External-effect oracles for one worker: outcome of the toolchain
invocation, the formatted size string when `fsutil.FileSize` succeeds, and
the digest pair when `generateChecksums` succeeds. -/
structure WorkerEnv where
  projectName : String
  compress : String
  checksums : Bool
  buildOk : targets.Target → Bool
  sizeStrOf : targets.Target → Option String
  checksumsOf : targets.Target → Option (String × String)

/-- One worker-loop iteration (lines 582-716): on toolchain failure it emits a
failure row with `n/a` sentinels; on success it emits a success row whose size
and digest fall back to `n/a` when the respective side step fails, and whose
file name comes from `finalRowName`. -/
def processTarget (env : WorkerEnv) (t : targets.Target) : Row :=
  let outName := targets.OutputName env.projectName t
  if env.buildOk t = false then
    { file := outName, target := t.OS ++ "/" ++ t.Arch
      size := "n/a", sha256 := "n/a", status := redX }
  else
    let sizeStr := match env.sizeStrOf t with
      | some s => s
      | none => "n/a"
    let sha256Str :=
      if env.checksums then
        match env.checksumsOf t with
        | some p => p.1
        | none => "n/a"
      else "n/a"
    { file := finalRowName outName env.compress, target := t.OS ++ "/" ++ t.Arch
      size := sizeStr, sha256 := sha256Str, status := greenTick }

/-- Rows produced by one worker for the targets it pulled from the queue:
the loop `for t := range targetChan` emits exactly one row per target. -/
def workerRun (env : WorkerEnv) (ts : List targets.Target) : List Row :=
  ts.map (processTarget env)

/-- Targets enqueued by the feeder goroutine (lines 721-726): the loop sends
every element of the matrix; no code path of `run` consults the
`flagStopOnError` variable, so the parameter is carried but unused. -/
def scheduledTargets (stopOnError : Bool) (matrix : List targets.Target) :
    List targets.Target :=
  matrix

/-- Single-worker (sequential) semantics of dispatch plus collection
(lines 566-742): every scheduled target is processed in order and yields one
row. -/
def runOrchestration (env : WorkerEnv) (stopOnError : Bool)
    (matrix : List targets.Target) : List Row :=
  (scheduledTargets stopOnError matrix).map (processTarget env)

/-- The collection loop (lines 734-742): each drained row increments exactly
one of the success/failure counters, selected by comparing the status glyph
with `redX`.  Returns (successCount, failCount). -/
def collectCounts (rows : List Row) : Nat × Nat :=
  rows.foldl
    (fun acc r => if r.status = redX then (acc.1, acc.2 + 1) else (acc.1 + 1, acc.2))
    (0, 0)

/-- Worker-count clamp (lines 567-570): a configured parallelism of zero or
less is raised to one (fully sequential). -/
def numWorkers (flagParallel : Int) : Int :=
  if flagParallel ≤ 0 then 1 else flagParallel

/-- A `BuildConfig` with the CLI default levels (flag defaults at
lines 258-275), for concrete instantiations. -/
def sampleConfig : gobuild.BuildConfig :=
  { Strategy := .NoCGOEver
    AMD64Level := "v2"
    ARM64Level := "v8.0"
    ARMLevel := "7"
    MIPSLevel := "hardfloat"
    PPC64Level := "power8"
    RISCVLevel := "rva20u64"
    BuildMode := "exe"
    Tags := ""
    LDFlags := ""
    BuildFlags := ""
    Verbose := false
    CleanCache := false }

/-- The CLI flag defaults (lines 252-279), for concrete instantiations. -/
def defaultFlags : Flags :=
  { strategy := "purego"
    amd64Level := "v2"
    arm64Level := "v8.0"
    armLevel := "7"
    mipsLevel := "hardfloat"
    ppc64Level := "power8"
    riscvLevel := "rva20u64"
    buildmode := "auto"
    tags := ""
    ldflags := ""
    buildFlags := ""
    verbose := false
    cleanCache := false
    compress := ""
    checksums := true
    stopOnError := false }

/-- The default flags with `--buildmode pie` requested. -/
def pieFlags : Flags :=
  { defaultFlags with buildmode := "pie" }

/-- Concrete target linux/amd64. -/
def tLinuxAmd : targets.Target := ⟨"linux", "amd64"⟩

/-- Concrete target linux/arm64. -/
def tLinuxArm : targets.Target := ⟨"linux", "arm64"⟩

/-- A concrete worker environment in which the toolchain fails exactly on
amd64 targets and all side steps (size, checksums) are unavailable. -/
def failFirstEnv : WorkerEnv :=
  { projectName := "app"
    compress := ""
    checksums := false
    buildOk := fun t => t.Arch != "amd64"
    sizeStrOf := fun _ => none
    checksumsOf := fun _ => none }

/-- A concrete worker environment with gzip compression requested and every
toolchain invocation succeeding. -/
def gzipEnv : WorkerEnv :=
  { projectName := "app"
    compress := "gzip"
    checksums := false
    buildOk := fun _ => true
    sizeStrOf := fun _ => none
    checksumsOf := fun _ => none }

/-- A concrete worker environment with no compression, checksums on and every
step succeeding. -/
def okEnv : WorkerEnv :=
  { projectName := "app"
    compress := ""
    checksums := true
    buildOk := fun _ => true
    sizeStrOf := fun _ => some "1.0 MiB (1048576)"
    checksumsOf := fun _ => some ("deadbeef", "cafebabe") }

end pbuild

/-! Helper lemmas (shared across claims). -/

theorem charToLowerIdem (c : Char) : c.toLower.toLower = c.toLower := by
  by_cases h : c.toNat ≥ 65 ∧ c.toNat ≤ 90
  · have e : c.toLower = Char.ofNat (c.toNat + 32) := by
      unfold Char.toLower
      rw [if_pos h]
    rw [e]
    obtain ⟨h1, h2⟩ := h
    set m := c.toNat with hm
    interval_cases m <;> decide
  · have e : c.toLower = c := by
      unfold Char.toLower
      rw [if_neg h]
    rw [e, e]

theorem toLowerGoIdem (s : String) : gobuild.toLowerGo (gobuild.toLowerGo s) = gobuild.toLowerGo s := by
  unfold gobuild.toLowerGo
  simp only [List.map_map]
  congr 1
  apply List.map_congr_left
  intro a _
  exact charToLowerIdem a

theorem parseDefault (s : String)
    (h1 : gobuild.toLowerGo s ≠ "flexible") (h2 : gobuild.toLowerGo s ≠ "purego")
    (h3 : gobuild.toLowerGo s ≠ "traditional") :
    gobuild.ParseStrategy s = .NoCGOEver := by
  unfold gobuild.ParseStrategy
  rw [if_neg h1, if_neg h2, if_neg h3]

theorem appendNeCgo (pre x : String) (h : pre.data.head? = some 'G') :
    pre ++ x ≠ "CGO_ENABLED=0" := by
  intro heq
  have hd : pre.data ++ x.data = "CGO_ENABLED=0".data := congrArg String.data heq
  cases hp : pre.data with
  | nil => rw [hp] at h; simp at h
  | cons a l =>
    rw [hp] at h hd
    simp at h
    subst h
    have h2 := congrArg List.head? hd
    simp at h2

theorem cgoNotMemArchEnv (t : targets.Target) (c : gobuild.BuildConfig) :
    "CGO_ENABLED=0" ∉ gobuild.archEnv t c := by
  unfold gobuild.archEnv
  split
  · simp
    exact fun hx => appendNeCgo "GOAMD64=" c.AMD64Level (by decide) hx.symm
  · split
    · simp
      exact fun hx => appendNeCgo "GOARM64=" c.ARM64Level (by decide) hx.symm
    · split
      · simp
        exact fun hx => appendNeCgo "GOARM=" c.ARMLevel (by decide) hx.symm
      · split
        · simp
          exact fun hx => appendNeCgo "GOMIPS=" c.MIPSLevel (by decide) hx.symm
        · split
          · simp
            exact fun hx => appendNeCgo "GOPPC64=" c.PPC64Level (by decide) hx.symm
          · split
            · simp
              exact fun hx => appendNeCgo "GORISCV64=" c.RISCVLevel (by decide) hx.symm
            · simp

theorem cgoMemIff (t : targets.Target) (c : gobuild.BuildConfig) (g : Bool) :
    "CGO_ENABLED=0" ∈ gobuild.envOverrides t c g ↔ c.Strategy ≠ .FlexibleCGO := by
  unfold gobuild.envOverrides
  constructor
  · intro hmem hstrat
    rw [if_neg (by simpa using hstrat)] at hmem
    simp only [List.append_nil, List.mem_append, List.mem_cons, List.not_mem_nil] at hmem
    rcases hmem with (h | h) | h
    · rcases h with h | h | h
      · exact appendNeCgo "GOOS=" t.OS (by decide) h.symm
      · exact appendNeCgo "GOARCH=" t.Arch (by decide) h.symm
      · simp at h
    · exact cgoNotMemArchEnv t c h
    · cases g with
      | true => simp at h
      | false => simp at h
  · intro hstrat
    rw [if_pos (by simpa using hstrat)]
    simp

theorem collectAux (rows : List pbuild.Row) (a b : Nat) :
    (rows.foldl
      (fun acc r => if r.status = pbuild.redX then (acc.1, acc.2 + 1) else (acc.1 + 1, acc.2))
      (a, b)).1
    + (rows.foldl
      (fun acc r => if r.status = pbuild.redX then (acc.1, acc.2 + 1) else (acc.1 + 1, acc.2))
      (a, b)).2 = a + b + rows.length := by
  induction rows generalizing a b with
  | nil => simp
  | cons r rs ih =>
    simp only [List.foldl_cons, List.length_cons]
    by_cases h : r.status = pbuild.redX
    · rw [if_pos h, ih]
      omega
    · rw [if_neg h, ih]
      omega

theorem countsSum (rows : List pbuild.Row) :
    (pbuild.collectCounts rows).1 + (pbuild.collectCounts rows).2 = rows.length := by
  unfold pbuild.collectCounts
  simpa using collectAux rows 0 0

/-! Claim theorems. -/

/-- Claim C9 (confirmed): for every target and every configuration, the
environment entries the resolver appends contain the interop-disabling
override `CGO_ENABLED=0` exactly when the strategy is not `FlexibleCGO`
(PermissiveNativeInterop); for every non-permissive strategy the full resolved
environment therefore contains it, and for `FlexibleCGO` no such override is
added. -/
theorem C9_interop_disable_iff (t : targets.Target) (c : gobuild.BuildConfig) (g : Bool) :
    ("CGO_ENABLED=0" ∈ gobuild.envOverrides t c g ↔ c.Strategy ≠ .FlexibleCGO) ∧
    (c.Strategy ≠ .FlexibleCGO →
      ∀ base : List String, "CGO_ENABLED=0" ∈ gobuild.resolvedEnv base t c g) ∧
    (c.Strategy = .FlexibleCGO → "CGO_ENABLED=0" ∉ gobuild.envOverrides t c g) := by
  refine ⟨cgoMemIff t c g, ?_, ?_⟩
  · intro h base
    exact List.mem_append_right base ((cgoMemIff t c g).2 h)
  · intro h hmem
    exact (cgoMemIff t c g).1 hmem h

/-- Witness for C9 at concrete configurations on both sides: the override is
appended (and lands in the resolved environment) for the non-permissive
default strategy, and is not added for `FlexibleCGO`. -/
theorem C9_interop_disable_iff_witness :
    "CGO_ENABLED=0" ∈ gobuild.envOverrides pbuild.tLinuxAmd pbuild.sampleConfig true ∧
    "CGO_ENABLED=0" ∈ gobuild.resolvedEnv [] pbuild.tLinuxAmd pbuild.sampleConfig true ∧
    "CGO_ENABLED=0" ∉ gobuild.envOverrides pbuild.tLinuxAmd
      { pbuild.sampleConfig with Strategy := .FlexibleCGO } true :=
  have h1 := C9_interop_disable_iff pbuild.tLinuxAmd pbuild.sampleConfig true
  have h2 := C9_interop_disable_iff pbuild.tLinuxAmd
    { pbuild.sampleConfig with Strategy := .FlexibleCGO } true
  ⟨h1.1.2 (by decide), h1.2.1 (by decide) [], h2.2.2 (by decide)⟩

/-- Claim C10 (confirmed): strategy parsing is case-insensitive — parsing the
ASCII-lowercased string yields the same strategy as parsing the original — and
the case variants of `flexible` all parse to `FlexibleCGO`; the PIE-escalation
check however compares the raw string, so the case variant `PUREGO` is not
escalated. -/
theorem C10_parse_case_insensitive :
    (∀ s : String, gobuild.ParseStrategy (gobuild.toLowerGo s) = gobuild.ParseStrategy s) ∧
    gobuild.ParseStrategy "Flexible" = .FlexibleCGO ∧
    gobuild.ParseStrategy "FLEXIBLE" = .FlexibleCGO ∧
    gobuild.ParseStrategy "flexible" = .FlexibleCGO ∧
    pbuild.getBuildStrategy "PUREGO" "pie" = gobuild.ParseStrategy "PUREGO" := by
  refine ⟨?_, by decide, by decide, by decide, by decide⟩
  intro s
  unfold gobuild.ParseStrategy
  rw [toLowerGoIdem]

/-- Claim C8 (confirmed): every strategy string whose lower-casing is not one
of the three recognized names parses to `NoCGOEver` (FullyStatic), never to an
error, and the resulting plan — argument list (tags included) and appended
environment — is identical to the plan for `NoCGOEver` with the same target
and configuration; in particular the tags are `purego,netgo,osusergo` and the
interop-disabling override is present. -/
theorem C8_unrecognized_is_fullystatic (s : String)
    (h1 : gobuild.toLowerGo s ≠ "flexible") (h2 : gobuild.toLowerGo s ≠ "purego")
    (h3 : gobuild.toLowerGo s ≠ "traditional") :
    gobuild.ParseStrategy s = .NoCGOEver ∧
    gobuild.getBuildTags (gobuild.ParseStrategy s) = "purego,netgo,osusergo" ∧
    ∀ (c : gobuild.BuildConfig) (t : targets.Target) (g : Bool) (oP : String),
      gobuild.buildArgs { c with Strategy := gobuild.ParseStrategy s } oP
        = gobuild.buildArgs { c with Strategy := .NoCGOEver } oP ∧
      gobuild.envOverrides t { c with Strategy := gobuild.ParseStrategy s } g
        = gobuild.envOverrides t { c with Strategy := .NoCGOEver } g ∧
      "CGO_ENABLED=0" ∈ gobuild.envOverrides t { c with Strategy := gobuild.ParseStrategy s } g := by
  have hp : gobuild.ParseStrategy s = .NoCGOEver := parseDefault s h1 h2 h3
  refine ⟨hp, by rw [hp]; rfl, ?_⟩
  intro c t g oP
  rw [hp]
  exact ⟨rfl, rfl, (cgoMemIff t { c with Strategy := .NoCGOEver } g).2 (by simp)⟩

/-- Witness for C8 at the unrecognized strategy string `bogus`. -/
theorem C8_unrecognized_is_fullystatic_witness :
    gobuild.ParseStrategy "bogus" = .NoCGOEver ∧
    gobuild.buildArgs { pbuild.sampleConfig with Strategy := gobuild.ParseStrategy "bogus" } "out"
      = gobuild.buildArgs { pbuild.sampleConfig with Strategy := .NoCGOEver } "out" ∧
    "CGO_ENABLED=0" ∈ gobuild.envOverrides pbuild.tLinuxAmd
      { pbuild.sampleConfig with Strategy := gobuild.ParseStrategy "bogus" } true :=
  have h := C8_unrecognized_is_fullystatic "bogus" (by decide) (by decide) (by decide)
  ⟨h.1, (h.2.2 pbuild.sampleConfig pbuild.tLinuxAmd true "out").1,
    (h.2.2 pbuild.sampleConfig pbuild.tLinuxAmd true "out").2.2⟩

/-- Claim C4 counterexample: with effective mode `pie`, the requested strategy
string `PUREGO` resolves to `NoCGOEver` (FullyStatic) under `ParseStrategy`,
yet `getBuildStrategy` does not escalate it to `FlexibleCGO` — the escalation
compares the raw string with `"purego"`. -/
theorem C4_escalation_counterexample :
    pbuild.getBuildMode "pie" = "pie" ∧
    gobuild.ParseStrategy "PUREGO" = .NoCGOEver ∧
    pbuild.getBuildStrategy "PUREGO" "pie" = .NoCGOEver ∧
    pbuild.getBuildStrategy "PUREGO" "pie" ≠ .FlexibleCGO := by decide

/-- Claim C4 as amended (corrected): with effective mode `pie`, the effective
strategy escalates to `FlexibleCGO` exactly when the raw requested string is
`"purego"`; when escalation applies, the resolved environment of any target
built with that strategy omits the interop-disabling override. -/
theorem C4_escalation_amended (s : String) (h : s = "purego") (t : targets.Target)
    (c : gobuild.BuildConfig) (g : Bool)
    (hc : c.Strategy = pbuild.getBuildStrategy s "pie") :
    pbuild.getBuildStrategy s "pie" = .FlexibleCGO ∧
    (∀ r : String, r ≠ "purego" →
      pbuild.getBuildStrategy r "pie" = gobuild.ParseStrategy r) ∧
    "CGO_ENABLED=0" ∉ gobuild.envOverrides t c g := by
  subst h
  have he : pbuild.getBuildStrategy "purego" "pie" = .FlexibleCGO := by decide
  refine ⟨he, ?_, ?_⟩
  · intro r hr
    unfold pbuild.getBuildStrategy
    rw [if_neg]
    intro hand
    exact hr hand.2
  · rw [he] at hc
    intro hmem
    exact (cgoMemIff t c g).1 hmem hc

/-- Witness for the amended C4 at the exact string `purego` and a concrete
escalated configuration. -/
theorem C4_escalation_amended_witness :
    pbuild.getBuildStrategy "purego" "pie" = .FlexibleCGO ∧
    "CGO_ENABLED=0" ∉ gobuild.envOverrides pbuild.tLinuxAmd
      { pbuild.sampleConfig with Strategy := .FlexibleCGO } true :=
  have h := C4_escalation_amended "purego" rfl pbuild.tLinuxAmd
    { pbuild.sampleConfig with Strategy := .FlexibleCGO } true (by decide)
  ⟨h.1, h.2.2⟩

/-- Claim C6 counterexample: two resolutions with identical Target and
BuildConfig (and identical ambient base environment) produce different
environment sets when the working directory differs in `go.mod` presence, so
resolution is not a function of exactly (Target, BuildConfig). -/
theorem C6_ambient_dependence_counterexample :
    gobuild.resolvedEnv [] pbuild.tLinuxAmd pbuild.sampleConfig true
      ≠ gobuild.resolvedEnv [] pbuild.tLinuxAmd pbuild.sampleConfig false := by decide

/-- Claim C6 as amended (corrected): resolution is deterministic in its full
explicit inputs, and the environment factors as the ambient process
environment, followed by overrides that are a pure function of
(Target, BuildConfig) alone, followed by a module-mode fallback that depends
only on `go.mod` presence; the argument list is a pure function of
(BuildConfig, output path). -/
theorem C6_determinism_amended (base : List String) (t : targets.Target)
    (c : gobuild.BuildConfig) (g : Bool) :
    gobuild.resolvedEnv base t c g
      = base ++ gobuild.specEnvOverridesPure t c
          ++ (if g then [] else ["GO111MODULE=off"]) := by
  unfold gobuild.resolvedEnv gobuild.envOverrides gobuild.specEnvOverridesPure
  simp [List.append_assoc]

/-- Claim C1 (code bug): the run never consults the stop-on-error flag — the
feeder schedules every matrix target and the orchestration result is
identical with the flag on and off.  Evaluated at the failing input: a
two-target matrix with stop-on-error enabled whose first target fails, the
second (unstarted) target is still scheduled and built successfully. -/
theorem C1_stop_on_error_ignored :
    (∀ (env : pbuild.WorkerEnv) (m : List targets.Target),
      pbuild.runOrchestration env true m = pbuild.runOrchestration env false m) ∧
    pbuild.scheduledTargets true [pbuild.tLinuxAmd, pbuild.tLinuxArm]
      = [pbuild.tLinuxAmd, pbuild.tLinuxArm] ∧
    (pbuild.processTarget pbuild.failFirstEnv pbuild.tLinuxAmd).status = pbuild.redX ∧
    (pbuild.runOrchestration pbuild.failFirstEnv true
      [pbuild.tLinuxAmd, pbuild.tLinuxArm]).length = 2 ∧
    (pbuild.processTarget pbuild.failFirstEnv pbuild.tLinuxArm)
      ∈ pbuild.runOrchestration pbuild.failFirstEnv true
          [pbuild.tLinuxAmd, pbuild.tLinuxArm] ∧
    (pbuild.processTarget pbuild.failFirstEnv pbuild.tLinuxArm).status = pbuild.greenTick :=
  ⟨fun _ _ => rfl, by decide, by decide, by decide, by decide, by decide⟩

/-- Claim C2 (code bug): when compression fails the original artifact is kept
and not deleted (and deletion happens only after success, with the compressed
path taken over), but the result row still reports the name with the
compression suffix: at the failing input (gzip requested, compression I/O
fails) the row for a successful linux/amd64 build of project `app` says
`app.gz` although the artifact on disk is the uncompressed `app`. -/
theorem C2_suffix_despite_failed_compression :
    pbuild.postBuildArtifact "app" "gzip" false = ("app", false) ∧
    pbuild.postBuildArtifact "app" "gzip" true = ("app.gz", true) ∧
    pbuild.postBuildArtifact "app" "" true = ("app", false) ∧
    pbuild.finalRowName "app" "gzip" = "app.gz" ∧
    (pbuild.processTarget pbuild.gzipEnv pbuild.tLinuxAmd).file = "app.gz" ∧
    (pbuild.processTarget pbuild.gzipEnv pbuild.tLinuxAmd).status = pbuild.greenTick := by
  decide

/-- Claim C3 counterexample: with the default flags and `--buildmode pie`
requested, the strategy recorded in the persisted metadata differs from the
effective strategy the workers build with (escalation is not reflected); with
the default flags (`--buildmode auto`), the recorded mode differs from the
effective mode (`auto` is not resolved). -/
theorem C3_metadata_counterexample :
    (pbuild.metadataBuildConfig pbuild.pieFlags).Strategy
        ≠ (pbuild.workerBuildConfig pbuild.pieFlags "v").Strategy ∧
    (pbuild.metadataBuildConfig pbuild.defaultFlags).BuildMode
        ≠ (pbuild.workerBuildConfig pbuild.defaultFlags "v").BuildMode := by decide

/-- Claim C3 as amended (corrected): the persisted BuildMetadata's BuildConfig
records the requested configuration — the strategy re-parsed from the raw flag
string without PIE escalation and the raw requested build mode with the
sentinel `auto` unresolved — so in a `pie`+`purego` run the recorded strategy
(`NoCGOEver`) differs from the effective strategy (`FlexibleCGO`) actually
used to build. -/
theorem C3_metadata_records_requested (fl : pbuild.Flags) (vt : String)
    (hm : fl.buildmode = "pie") (hs : fl.strategy = "purego") :
    (pbuild.metadataBuildConfig fl).Strategy = gobuild.ParseStrategy fl.strategy ∧
    (pbuild.metadataBuildConfig fl).BuildMode = fl.buildmode ∧
    (pbuild.workerBuildConfig fl vt).Strategy = .FlexibleCGO ∧
    (pbuild.workerBuildConfig fl vt).BuildMode = "pie" ∧
    (pbuild.metadataBuildConfig fl).Strategy ≠ (pbuild.workerBuildConfig fl vt).Strategy := by
  have hmode : pbuild.getBuildMode fl.buildmode = "pie" := by
    rw [hm]
    decide
  have hstrat : pbuild.getBuildStrategy fl.strategy (pbuild.getBuildMode fl.buildmode)
      = .FlexibleCGO := by
    rw [hmode, hs]
    decide
  have hw : (pbuild.workerBuildConfig fl vt).Strategy = .FlexibleCGO ∧
      (pbuild.workerBuildConfig fl vt).BuildMode = "pie" := by
    unfold pbuild.workerBuildConfig
    by_cases hld : fl.ldflags = "" <;>
      simp [hld, hmode, hs, pbuild.getBuildStrategy]
  refine ⟨rfl, rfl, hw.1, hw.2, ?_⟩
  rw [hw.1]
  show gobuild.ParseStrategy fl.strategy ≠ .FlexibleCGO
  rw [hs]
  decide

/-- Witness for the amended C3 at the concrete `pie`+`purego` flag set. -/
theorem C3_metadata_records_requested_witness :
    (pbuild.metadataBuildConfig pbuild.pieFlags).Strategy
        = gobuild.ParseStrategy pbuild.pieFlags.strategy ∧
    (pbuild.workerBuildConfig pbuild.pieFlags "v").Strategy = .FlexibleCGO ∧
    (pbuild.metadataBuildConfig pbuild.pieFlags).Strategy
        ≠ (pbuild.workerBuildConfig pbuild.pieFlags "v").Strategy :=
  have h := C3_metadata_records_requested pbuild.pieFlags "v" rfl rfl
  ⟨h.1, h.2.2.1, h.2.2.2.2⟩

/-- Claim C5 (confirmed): for any partition of the target matrix among the
workers and any interleaving of the emitted rows, the collection phase gathers
exactly one row per matrix target (the collected rows are a permutation of the
per-target results, none dropped, none duplicated), the number of rows equals
the matrix size, the success and failure counters sum to that size, and the
worker count is always clamped to at least one. -/
theorem C5_one_result_per_target (env : pbuild.WorkerEnv)
    (matrix : List targets.Target) (assignment : List (List targets.Target))
    (h1 : List.Perm assignment.flatten matrix)
    (results : List pbuild.Row)
    (h2 : List.Perm results (assignment.map (pbuild.workerRun env)).flatten) :
    List.Perm results (matrix.map (pbuild.processTarget env)) ∧
    results.length = matrix.length ∧
    (pbuild.collectCounts results).1 + (pbuild.collectCounts results).2 = matrix.length ∧
    ∀ w : Int, 1 ≤ pbuild.numWorkers w := by
  have hwr : pbuild.workerRun env = List.map (pbuild.processTarget env) := by
    funext ts
    rfl
  have hjoin : (assignment.map (pbuild.workerRun env)).flatten
      = assignment.flatten.map (pbuild.processTarget env) := by
    rw [hwr]
    simp [List.map_flatten]
  rw [hjoin] at h2
  have hperm : List.Perm results (matrix.map (pbuild.processTarget env)) :=
    h2.trans (h1.map (pbuild.processTarget env))
  have hlen : results.length = matrix.length := by
    simpa using hperm.length_eq
  refine ⟨hperm, hlen, ?_, ?_⟩
  · rw [countsSum]
    exact hlen
  · intro w
    unfold pbuild.numWorkers
    split
    · omega
    · omega

/-- Witness for C5: a two-target matrix split between two workers whose rows
are collected out of order. -/
theorem C5_one_result_per_target_witness :
    List.Perm
      [pbuild.processTarget pbuild.failFirstEnv pbuild.tLinuxArm,
       pbuild.processTarget pbuild.failFirstEnv pbuild.tLinuxAmd]
      ([pbuild.tLinuxAmd, pbuild.tLinuxArm].map
        (pbuild.processTarget pbuild.failFirstEnv)) ∧
    [pbuild.processTarget pbuild.failFirstEnv pbuild.tLinuxArm,
       pbuild.processTarget pbuild.failFirstEnv pbuild.tLinuxAmd].length
      = [pbuild.tLinuxAmd, pbuild.tLinuxArm].length ∧
    (pbuild.collectCounts
      [pbuild.processTarget pbuild.failFirstEnv pbuild.tLinuxArm,
       pbuild.processTarget pbuild.failFirstEnv pbuild.tLinuxAmd]).1
      + (pbuild.collectCounts
      [pbuild.processTarget pbuild.failFirstEnv pbuild.tLinuxArm,
       pbuild.processTarget pbuild.failFirstEnv pbuild.tLinuxAmd]).2
      = [pbuild.tLinuxAmd, pbuild.tLinuxArm].length ∧
    ∀ w : Int, 1 ≤ pbuild.numWorkers w :=
  C5_one_result_per_target pbuild.failFirstEnv
    [pbuild.tLinuxAmd, pbuild.tLinuxArm]
    [[pbuild.tLinuxAmd], [pbuild.tLinuxArm]]
    (by decide)
    [pbuild.processTarget pbuild.failFirstEnv pbuild.tLinuxArm,
     pbuild.processTarget pbuild.failFirstEnv pbuild.tLinuxAmd]
    (by decide)

/-- Claim C7 (confirmed): with no override the resolved version tag is
`base-revision` optionally followed by `-dirty`, where base falls back to the
embedded constant when the source scan found nothing, the revision falls back
to `unknown` when unresolvable, and `-dirty` is appended exactly when the
dirty heuristic reported true; a nonempty override is used verbatim. -/
theorem C7_version_tag_shape (ov base rev : String) (dirty : Bool) :
    (ov ≠ "" → pbuild.resolveVersionTag ov base rev dirty = ov) ∧
    (ov = "" → pbuild.resolveVersionTag ov base rev dirty
      = ((if base = "" then pbuild.appVersion else base) ++ "-"
          ++ (if rev = "" then "unknown" else rev))
        ++ (if dirty then "-dirty" else "")) := by
  constructor
  · intro h
    unfold pbuild.resolveVersionTag
    rw [if_pos h]
  · intro h
    subst h
    unfold pbuild.resolveVersionTag
    simp only [ne_eq, not_true_eq_false, if_false, reduceIte]
    cases dirty with
    | true => simp [String.append_assoc]
    | false => simp

/-- Witness for C7: the spec scenario — no override, embedded-version scan
fails, revision `abc1234`, tree clean — yields the fallback constant tag
`1.1.19-abc1234`; and a nonempty override is used verbatim. -/
theorem C7_version_tag_shape_witness :
    pbuild.resolveVersionTag "" "" "abc1234" false = "1.1.19-abc1234" ∧
    pbuild.resolveVersionTag "v9" "" "abc1234" true = "v9" := by
  constructor
  · have h := (C7_version_tag_shape "" "" "abc1234" false).2 rfl
    rw [h]
    decide
  · have h := (C7_version_tag_shape "v9" "" "abc1234" true).1 (by decide)
    rw [h]
